import Mathlib

/-!
Verification of the in-memory annotated-matrix container (`anndata-memory`).

This file gives a shallow embedding of the repository's core data model and
operations: the shared slot primitive (`src/base/mod.rs`), the selector
translation (`src/utils/mod.rs`), the table / array / axis-collection elements
(`src/ad/helpers.rs`) and the aggregate `IMAnnData` object (`src/ad/mod.rs`).
Concurrency primitives (`Arc`, `parking_lot::RwLock`) are flattened: shared
slots are modelled either as plain values threaded through state-passing
functions, or (where aliasing itself is the property under study) as indices
into an explicit cell store.  Fallible operations return `Except String`;
a Rust panic is modelled as an `Except.error` whose message starts with
`panic:`.  The external collaborators (polars `DataFrame`/`Series`, the
`anndata` crate's `SelectInfoElem`, `Shape`, `Dim`) are modelled from their
documented behaviour on the code paths this repository exercises.
-/

namespace AnndataMem

deriving instance DecidableEq for Except

/-- Cell values of the external polars value universe, restricted to the types
this repository's code paths construct (string labels and numeric entries). -/
inductive PValue where
  | str : String → PValue
  | int : Int → PValue
deriving DecidableEq

/-- Model of the external polars `Series`: a named column. -/
structure Series where
  name : String
  values : List PValue
deriving DecidableEq

/-- Model of the external polars `DataFrame`: a list of equally long named
columns. -/
structure DataFrame where
  cols : List Series
deriving DecidableEq

/-- `DataFrame::height`: the first column's length, 0 when there are no
columns. -/
def DataFrame.height (df : DataFrame) : Nat :=
  match df.cols with
  | [] => 0
  | c :: _ => c.values.length

/-- Model of polars `DataFrame::take`: keep the rows at the given positions in
the given order; fails if a position is out of bounds. -/
def DataFrame.take (df : DataFrame) (indices : List Nat) : Except String DataFrame :=
  if indices.all (fun i => i < df.height) then
    .ok ⟨df.cols.map (fun c => ⟨c.name, indices.map (fun i => c.values.getD i (.str ""))⟩)⟩
  else .error "take indices are out of bounds"

/-- Model of polars `DataFrame::with_column`: replace the column of the same
name, or append a new one.  A length-1 column is broadcast to the height of a
nonempty frame; any other length differing from the height of a nonempty
frame is an error. -/
def DataFrame.with_column (df : DataFrame) (s : Series) : Except String DataFrame :=
  let vals :=
    if s.values.length = 1 ∧ df.cols ≠ [] then
      List.replicate df.height (s.values.getD 0 (.str ""))
    else s.values
  if df.cols ≠ [] ∧ vals.length ≠ df.height then
    .error "could not add column of different length"
  else if (df.cols.map Series.name).contains s.name then
    .ok ⟨df.cols.map (fun c => if c.name = s.name then ⟨s.name, vals⟩ else c)⟩
  else .ok ⟨df.cols ++ [⟨s.name, vals⟩]⟩

/-- Model of polars `DataFrame::drop_in_place`: remove the named column; fails
when it is absent. -/
def DataFrame.drop_in_place (df : DataFrame) (name : String) : Except String DataFrame :=
  if (df.cols.map Series.name).contains name then
    .ok ⟨df.cols.filter (fun c => c.name != name)⟩
  else .error "Column not found"

/-- Model of polars `DataFrame::replace`, which delegates to `apply_at_idx`:
swap an existing column for the new one.  A length-1 column is broadcast
(`new_from_index`) to the frame's height; a column whose length equals the
height replaces in place; any other length is a shape-mismatch error; an
absent column name is an error. -/
def DataFrame.replace (df : DataFrame) (name : String) (s : Series) : Except String DataFrame :=
  if !(df.cols.map Series.name).contains name then
    .error "Column not found"
  else if s.values.length = 1 then
    .ok ⟨df.cols.map (fun c =>
      if c.name = name then ⟨name, List.replicate df.height (s.values.getD 0 (.str ""))⟩
      else c)⟩
  else if s.values.length = df.height then
    .ok ⟨df.cols.map (fun c => if c.name = name then ⟨name, s.values⟩ else c)⟩
  else .error "shape mismatch: replacement column has a different length"

/-- Model of the `anndata` crate's `SelectInfoElem`: one per-axis selector,
either an explicit list of positions or a start / end / step slice
(`stop = none` is an unbounded end).  The repository's code paths construct
only nonnegative slice fields, and the spec (spec 9) flags negative values as
unspecified, so the model uses `Nat` fields. -/
inductive SelectInfoElem where
  | index : List Nat → SelectInfoElem
  | slice : Nat → Option Nat → Nat → SelectInfoElem
deriving DecidableEq

/-- `SelectInfoElem::full()`: the all-positions slice `(0, unbounded, 1)`. -/
def SelectInfoElem.full : SelectInfoElem := .slice 0 none 1

/-- Number of terms of the Rust iterator `(start..stop).step_by(step)`:
`start, start + step, ...` while below `stop`, i.e. `ceil((stop-start)/step)`
terms. -/
def stepCount (start stop step : Nat) : Nat := (stop - start + step - 1) / step

/-- `select_info_elem_to_indices` (src/utils/mod.rs): translate a selector into
explicit positional indices against `bound`.  An explicit list is validated
(every position `< bound`) and returned unchanged; a slice defaults an
unbounded end to `bound`, fails when `start >= bound` or `end > bound`, and
otherwise yields `(start..end).step_by(step)`, i.e. `List.range'` with
`stepCount` terms. -/
def select_info_elem_to_indices (elem : SelectInfoElem) (bound : Nat) :
    Except String (List Nat) :=
  match elem with
  | .index indices =>
    if indices.all (fun i => i < bound) then .ok indices
    else .error "Index out of bounds"
  | .slice start stop step =>
    let e := stop.getD bound
    if bound ≤ start ∨ bound < e then .error "Slice out of bounds"
    else .ok (List.range' start (stepCount start e step) step)

/-- Model of the external `anndata` crate's `SelectInfoElem::bound_check`: a
selector is in bounds for `n` iff every position it denotes is below `n` (for
a slice: `start < n` and the effective end at most `n`, matching spec 4.5). -/
def SelectInfoElem.bound_check (s : SelectInfoElem) (n : Nat) : Bool :=
  match s with
  | .index indices => indices.all (fun i => i < n)
  | .slice start stop _ => decide (start < n) && decide (stop.getD n ≤ n)

theorem stepCount_lt_iff (start stop step k : Nat) (h : 1 ≤ step) :
    k < stepCount start stop step ↔ start + step * k < stop := by
  unfold stepCount
  rw [Nat.lt_iff_add_one_le, Nat.le_div_iff_mul_le h, Nat.succ_mul, Nat.mul_comm k step]
  generalize step * k = p
  omega

/-- C5: selector-to-indices translation.  An in-bounds explicit list is
returned unchanged (order and duplicates preserved); a list with any position
`>= bound` fails; a slice defaults an unbounded end to `bound`, fails when
`start >= bound` or the effective end exceeds `bound`, and otherwise yields
exactly the ascending arithmetic sequence from `start` to the effective end
stepping by `step`.  The three concrete examples of spec 8 are included. -/
theorem select_translation_spec (bound : Nat) (l : List Nat) (start : Nat)
    (stop : Option Nat) (step : Nat) (hstep : 1 ≤ step) :
    ((∀ i ∈ l, i < bound) → select_info_elem_to_indices (.index l) bound = .ok l)
    ∧ ((∃ i ∈ l, bound ≤ i) →
        (select_info_elem_to_indices (.index l) bound).isOk = false)
    ∧ (bound ≤ start ∨ bound < stop.getD bound →
        (select_info_elem_to_indices (.slice start stop step) bound).isOk = false)
    ∧ (start < bound → stop.getD bound ≤ bound →
        ∃ L, select_info_elem_to_indices (.slice start stop step) bound = .ok L
          ∧ (∀ x, x ∈ L ↔ ∃ k, x = start + k * step ∧ x < stop.getD bound)
          ∧ L.Pairwise (· < ·))
    ∧ select_info_elem_to_indices (.index [2, 0, 1]) 3 = .ok [2, 0, 1]
    ∧ select_info_elem_to_indices (.slice 1 none 1) 5 = .ok [1, 2, 3, 4]
    ∧ select_info_elem_to_indices (.slice 0 (some 0) 1) 5 = .ok [] := by
  refine ⟨?_, ?_, ?_, ?_, by decide, by decide, by decide⟩
  · intro h
    simp only [select_info_elem_to_indices, List.all_eq_true, decide_eq_true_eq]
    rw [if_pos h]
  · intro h
    have hall : ¬ (∀ i ∈ l, i < bound) := by
      obtain ⟨i, hi, hbi⟩ := h
      exact fun hf => absurd (hf i hi) (by omega)
    simp only [select_info_elem_to_indices, List.all_eq_true, decide_eq_true_eq]
    rw [if_neg hall]
    rfl
  · intro h
    simp only [select_info_elem_to_indices]
    rw [if_pos h]
    rfl
  · intro h1 h2
    refine ⟨List.range' start (stepCount start (stop.getD bound) step) step, ?_, ?_, ?_⟩
    · simp only [select_info_elem_to_indices]
      rw [if_neg (by omega)]
    · intro x
      rw [List.mem_range']
      constructor
      · rintro ⟨i, hi, rfl⟩
        exact ⟨i, by rw [Nat.mul_comm], (stepCount_lt_iff start _ step i hstep).mp hi⟩
      · rintro ⟨k, rfl, hk⟩
        rw [Nat.mul_comm k step] at hk
        exact ⟨k, (stepCount_lt_iff start _ step k hstep).mpr hk, by rw [Nat.mul_comm k step]⟩
    · exact List.pairwise_lt_range' start _ step (by omega)

/-- Concrete instantiation of the C5 theorem (discharging its step
hypothesis). -/
theorem select_translation_spec_witness :
    select_info_elem_to_indices (.index [2, 0, 1]) 3 = .ok [2, 0, 1] :=
  (select_translation_spec 3 [2, 0, 1] 0 none 1 (by decide)).2.2.2.2.1

/-- `InnerIMDataFrame` (src/ad/helpers.rs): the `(table, label-index)` pair a
`IMDataFrameElement` keeps behind one shared slot.  The index is the ordered
list of row labels (`DataFrameIndex` of the `anndata` crate, modelled as
`List String`). -/
structure InnerIMDataFrame where
  df : DataFrame
  index : List String
deriving DecidableEq

namespace InnerIMDataFrame

/-- `IMDataFrameElement::new`: when the supplied table has height 0 the table
is discarded and replaced by a one-column `index` table built from the labels;
otherwise the constructor panics (modelled as `.error`) unless the table
height equals the index length, and stores the pair untouched. -/
def new (df : DataFrame) (index : List String) : Except String InnerIMDataFrame :=
  if df.height = 0 then
    .ok ⟨⟨[⟨"index", index.map .str⟩]⟩, index⟩
  else if df.height ≠ index.length then
    .error "panic: Length of index does not match length of DataFrame"
  else .ok ⟨df, index⟩

/-- `IMDataFrameElement::set_both`: replace the pair as one unit; the source
checks the new table height against the old table height, the new index
length against the old index length, and the old table height against the new
index length, and errors (mutating nothing) when any of them differ. -/
def set_both (d : InnerIMDataFrame) (df : DataFrame) (index : List String) :
    Except String InnerIMDataFrame :=
  if d.df.height ≠ df.height ∨ d.index.length ≠ index.length
      ∨ d.df.height ≠ index.length then
    .error "Length of index does not match length of DataFrame"
  else .ok ⟨df, index⟩

/-- `IMDataFrameElement::set_data`: replace the table only; errors (mutating
nothing) unless the new table height matches both the held index length and
the old table height. -/
def set_data (d : InnerIMDataFrame) (df : DataFrame) : Except String InnerIMDataFrame :=
  if d.index.length ≠ df.height ∨ d.df.height ≠ df.height then
    .error "Length of index does not match length of DataFrame"
  else .ok ⟨df, d.index⟩

/-- `IMDataFrameElement::set_index`: replace the label index only; errors
(mutating nothing) unless the new index length matches both the held table
height and the old index length. -/
def set_index (d : InnerIMDataFrame) (index : List String) : Except String InnerIMDataFrame :=
  if d.df.height ≠ index.length ∨ d.index.length ≠ index.length then
    .error "Length of index does not match length of DataFrame"
  else .ok ⟨d.df, index⟩

/-- `IMDataFrameElement::attach_column_to_df`: errors (mutating nothing) when
the column length differs from the current table height, otherwise delegates
to the polars `with_column`. -/
def attach_column_to_df (d : InnerIMDataFrame) (column : Series) :
    Except String InnerIMDataFrame :=
  if d.df.height ≠ column.values.length then
    .error "Length of column does not match length of DataFrame"
  else do
    let df ← d.df.with_column column
    pure ⟨df, d.index⟩

/-- `IMDataFrameElement::remove_column_from_df`: delegates to the polars
`drop_in_place` with no height validation of its own. -/
def remove_column_from_df (d : InnerIMDataFrame) (name : String) :
    Except String InnerIMDataFrame := do
  let df ← d.df.drop_in_place name
  pure ⟨df, d.index⟩

/-- `IMDataFrameElement::set_column_in_df`: delegates entirely to the polars
`replace` (broadcast of a length-1 column, rejection of any other length
differing from the height). -/
def set_column_in_df (d : InnerIMDataFrame) (name : String) (column : Series) :
    Except String InnerIMDataFrame :=
  match d.df.replace name column with
  | .ok df => .ok ⟨df, d.index⟩
  | .error e => .error e

/-- `IMDataFrameElement::subset_inplace`: translate the selector against the
current label-index length, take those rows, slice the index, then hand the
new pair to `set_both`.  In the source the call to `set_both` re-acquires the
write lock that `write_inner` is still holding (`parking_lot` locks are not
re-entrant, so at runtime the call deadlocks); the model uses re-entrant lock
semantics, under which `set_both` validates the new pair against the still
held old pair. -/
def subset_inplace (d : InnerIMDataFrame) (s : SelectInfoElem) :
    Except String InnerIMDataFrame := do
  let indices ← select_info_elem_to_indices s d.index.length
  let ind_subset := indices.map (fun i => d.index.getD i "")
  let df_subset ← d.df.take indices
  d.set_both df_subset ind_subset

/-- `IMDataFrameElement::subset`: translate the selector against the current
label-index length, take those rows, slice the index, and build a fresh
element through `new`. -/
def subset (d : InnerIMDataFrame) (s : SelectInfoElem) : Except String InnerIMDataFrame := do
  let indices ← select_info_elem_to_indices s d.index.length
  let ind_subset := indices.map (fun i => d.index.getD i "")
  let df_subset ← d.df.take indices
  new df_subset ind_subset

end InnerIMDataFrame

/-- C4 counterexample: the claimed equivalence (construction succeeds iff
`table.height == index.length`) fails at a height-0 table with a one-label
index: the heights differ (0 vs 1) yet construction succeeds, silently
replacing the table half of the pair. -/
theorem tableElement_new_height0_breaks_iff :
    (InnerIMDataFrame.new ⟨[]⟩ ["a"]).isOk = true
    ∧ DataFrame.height ⟨[]⟩ ≠ ["a"].length := by
  decide

/-- C4 as amended: for a table of nonzero height, `IMDataFrameElement::new`
succeeds iff the table height equals the index length (otherwise it panics),
and on success it stores exactly the supplied pair, truncating nothing. -/
theorem tableElement_new_spec (df : DataFrame) (index : List String)
    (h : df.height ≠ 0) :
    ((InnerIMDataFrame.new df index).isOk = true ↔ df.height = index.length)
    ∧ (∀ r, InnerIMDataFrame.new df index = .ok r → r = ⟨df, index⟩) := by
  constructor
  · unfold InnerIMDataFrame.new
    rw [if_neg h]
    by_cases hm : df.height = index.length
    · rw [if_neg (by omega)]
      simp [hm, Except.isOk, Except.toBool]
    · rw [if_pos (by omega)]
      simp [hm, Except.isOk, Except.toBool]
  · intro r hr
    unfold InnerIMDataFrame.new at hr
    rw [if_neg h] at hr
    by_cases hm : df.height = index.length
    · rw [if_neg (by omega)] at hr
      cases hr
      rfl
    · rw [if_pos (by omega)] at hr
      cases hr

/-- Concrete instantiation of the C4 theorem at a height-1 table. -/
theorem tableElement_new_spec_witness :
    (InnerIMDataFrame.new ⟨[⟨"index", [.str "a"]⟩]⟩ ["a"]).isOk = true :=
  (tableElement_new_spec ⟨[⟨"index", [.str "a"]⟩]⟩ ["a"] (by decide)).1.mpr (by decide)

/-- C9: for a height-0 table, construction always succeeds regardless of the
index length; the supplied table is discarded and replaced by a one-column
`index` table built from the labels, whose height equals the index length. -/
theorem tableElement_new_height0_spec (df : DataFrame) (index : List String)
    (h : df.height = 0) :
    InnerIMDataFrame.new df index = .ok ⟨⟨[⟨"index", index.map .str⟩]⟩, index⟩
    ∧ DataFrame.height ⟨[⟨"index", index.map .str⟩]⟩ = index.length := by
  constructor
  · unfold InnerIMDataFrame.new
    rw [if_pos h]
  · simp [DataFrame.height]

/-- Concrete instantiation of the C9 theorem: a columnless table with a
two-label index. -/
theorem tableElement_new_height0_spec_witness :
    InnerIMDataFrame.new ⟨[]⟩ ["a", "b"]
      = .ok ⟨⟨[⟨"index", [.str "a", .str "b"]⟩]⟩, ["a", "b"]⟩ :=
  (tableElement_new_height0_spec ⟨[]⟩ ["a", "b"] (by decide)).1

/-- C6 counterexample: `remove_column_from_df` performs no height validation.
Dropping the only column of a one-row table succeeds and leaves a pair whose
table height (0) differs from its index length (1) — the invariant is broken
silently instead of the mutator failing. -/
theorem tableElement_remove_column_breaks_invariant :
    InnerIMDataFrame.remove_column_from_df ⟨⟨[⟨"index", [.str "a"]⟩]⟩, ["a"]⟩ "index"
      = .ok ⟨⟨[]⟩, ["a"]⟩
    ∧ DataFrame.height ⟨[]⟩ ≠ ["a"].length := by
  decide

theorem replace_preserves_height (df : DataFrame) (name : String) (s : Series)
    (r : DataFrame) (h : df.replace name s = .ok r) : r.height = df.height := by
  simp only [DataFrame.replace] at h
  by_cases hc : (df.cols.map Series.name).contains name
  · rw [if_neg (by rw [hc]; decide)] at h
    by_cases h1 : s.values.length = 1
    · rw [if_pos h1] at h
      cases h
      cases hcols : df.cols with
      | nil => simp [DataFrame.height, hcols]
      | cons c rest =>
        simp only [DataFrame.height, hcols, List.map_cons]
        split_ifs <;> simp
    · rw [if_neg h1] at h
      by_cases h2 : s.values.length = df.height
      · rw [if_pos h2] at h
        cases h
        cases hcols : df.cols with
        | nil => simp [DataFrame.height, hcols]
        | cons c rest =>
          simp only [DataFrame.height, hcols, List.map_cons] at h2 ⊢
          split_ifs <;> simp_all
      · rw [if_neg h2] at h
        cases h
  · have hcf : (df.cols.map Series.name).contains name = false := by
      simpa using hc
    rw [if_pos (by rw [hcf]; rfl)] at h
    cases h

/-- C6 as amended: every single-unit mutator except `remove_column_from_df`
preserves the invariant `table.height == index.length`.  `set_both`,
`set_data`, `set_index` and `attach_column_to_df` validate the post-mutation
invariant and return an error, mutating nothing, when it would be violated —
in particular attaching a column whose length differs from the current table
height fails and leaves the table unmodified.  `set_column_in_df` delegates
to the polars `replace`, which broadcasts a length-1 column to the table
height and rejects any other length differing from the height, so it errors
on such a mismatch and a committed `set_column_in_df` never changes the
table height or the index.  `remove_column_from_df` validates nothing, and
silently breaks the invariant exactly when it drops the last column of a
table with nonzero height. -/
theorem tableElement_mutators_validate (d : InnerIMDataFrame) (df : DataFrame)
    (index : List String) (col : Series) (name : String) :
    (df.height ≠ index.length → (d.set_both df index).isOk = false)
    ∧ (df.height ≠ d.index.length → (d.set_data df).isOk = false)
    ∧ (index.length ≠ d.df.height → (d.set_index index).isOk = false)
    ∧ (col.values.length ≠ d.df.height → (d.attach_column_to_df col).isOk = false)
    ∧ (col.values.length ≠ 1 → col.values.length ≠ d.df.height →
        (d.set_column_in_df name col).isOk = false)
    ∧ (∀ r, d.set_column_in_df name col = .ok r →
        r.df.height = d.df.height ∧ r.index = d.index) := by
  refine ⟨?_, ?_, ?_, ?_, ?_, ?_⟩
  · intro h
    unfold InnerIMDataFrame.set_both
    rw [if_pos (by omega)]
    rfl
  · intro h
    unfold InnerIMDataFrame.set_data
    rw [if_pos (by omega)]
    rfl
  · intro h
    unfold InnerIMDataFrame.set_index
    rw [if_pos (by omega)]
    rfl
  · intro h
    unfold InnerIMDataFrame.attach_column_to_df
    rw [if_pos (by omega)]
    rfl
  · intro h1 hh
    simp only [InnerIMDataFrame.set_column_in_df, DataFrame.replace]
    by_cases hc : (d.df.cols.map Series.name).contains name
    · rw [if_neg (by rw [hc]; decide), if_neg h1, if_neg hh]
      rfl
    · have hcf : (d.df.cols.map Series.name).contains name = false := by
        simpa using hc
      rw [if_pos (by rw [hcf]; rfl)]
      rfl
  · intro r hr
    simp only [InnerIMDataFrame.set_column_in_df] at hr
    cases hrep : d.df.replace name col with
    | error e =>
      rw [hrep] at hr
      cases hr
    | ok v =>
      rw [hrep] at hr
      cases hr
      exact ⟨replace_preserves_height d.df name col v hrep, rfl⟩

/-- Concrete instantiation of the C6 theorem: replacing a one-row pair with a
columnless table, attaching an empty column to a one-row table, and setting
a length-2 column into a one-row table, all fail. -/
theorem tableElement_mutators_validate_witness :
    (InnerIMDataFrame.set_both ⟨⟨[⟨"index", [.str "a"]⟩]⟩, ["a"]⟩ ⟨[]⟩ ["x"]).isOk = false
    ∧ (InnerIMDataFrame.attach_column_to_df ⟨⟨[⟨"index", [.str "a"]⟩]⟩, ["a"]⟩
        ⟨"c", []⟩).isOk = false
    ∧ (InnerIMDataFrame.set_column_in_df ⟨⟨[⟨"index", [.str "a"]⟩]⟩, ["a"]⟩ "index"
        ⟨"c", [.str "x", .str "y"]⟩).isOk = false :=
  ⟨(tableElement_mutators_validate ⟨⟨[⟨"index", [.str "a"]⟩]⟩, ["a"]⟩ ⟨[]⟩ ["x"]
      ⟨"c", []⟩ "c").1 (by decide),
   (tableElement_mutators_validate ⟨⟨[⟨"index", [.str "a"]⟩]⟩, ["a"]⟩ ⟨[]⟩ ["x"]
      ⟨"c", []⟩ "c").2.2.2.1 (by decide),
   (tableElement_mutators_validate ⟨⟨[⟨"index", [.str "a"]⟩]⟩, ["a"]⟩ ⟨[]⟩ ["x"]
      ⟨"c", [.str "x", .str "y"]⟩ "index").2.2.2.2.1 (by decide) (by decide)⟩

/-- C2: evaluation of `subset_inplace` at a valid selector.  The element holds
a two-row table with index `["a", "b"]`; the selector `[0]` is valid against
the label-index length 2, yet the operation returns an error instead of
committing the one-row pair: the final `set_both` call validates the new pair
against the old heights (2 vs 1) and rejects it.  (At runtime the source
deadlocks even earlier: `subset_inplace` still holds the `write_inner` guard
when `set_both` re-acquires the same non-re-entrant write lock.) -/
theorem tableElement_subset_inplace_rejects_valid_selector :
    InnerIMDataFrame.subset_inplace
      ⟨⟨[⟨"index", [.str "a", .str "b"]⟩]⟩, ["a", "b"]⟩ (.index [0])
      = .error "Length of index does not match length of DataFrame" := by
  decide

/-- Model of the external `ArrayData` value type of the `anndata` crate: a
dense 1-D or 2-D integer array.  The sparse / dtype variations are outside
the verified properties; what the repository relies on is the shape and the
per-axis selection behaviour. -/
inductive ArrayData where
  | a1 : List Int → ArrayData
  | a2 : List (List Int) → ArrayData
deriving DecidableEq

/-- `HasShape::shape`: the per-axis lengths. -/
def ArrayData.shape : ArrayData → List Nat
  | .a1 v => [v.length]
  | .a2 m => [m.length, (m.headD []).length]

/-- `ArrayOp::select`: apply one selector per axis, keeping the selected
positions in selector order; a selection that is malformed for the current
shape (wrong arity or out of bounds) fails. -/
def ArrayData.select (a : ArrayData) (s : List SelectInfoElem) : Except String ArrayData :=
  match a, s with
  | .a1 v, [s0] => do
    let idx ← select_info_elem_to_indices s0 v.length
    pure (.a1 (idx.map (fun i => v.getD i 0)))
  | .a2 m, [s0, s1] => do
    let idx0 ← select_info_elem_to_indices s0 m.length
    let idx1 ← select_info_elem_to_indices s1 (m.headD []).length
    pure (.a2 (idx0.map (fun i => idx1.map (fun j => (m.getD i []).getD j 0))))
  | _, _ => .error "panic: selection arity does not match array rank"

/-- `Axis` (anndata crate): the shape rule an axis collection enforces. -/
inductive Axis where
  | Row
  | RowColumn
  | Pairwise
deriving DecidableEq

/-- Association-list lookup, modelling the `String`-keyed `HashMap` of the
axis collections (insertion order is irrelevant in the source). -/
def alFind {α : Type} : List (String × α) → String → Option α
  | [], _ => none
  | (k, v) :: rest, key => if k = key then some v else alFind rest key

/-- `InnerIMAxisArray` (src/ad/helpers.rs): axis kind, the current values of
the one or two shared `Dim` cells, and the keyed elements. -/
structure InnerIMAxisArray where
  axis : Axis
  dim1 : Nat
  dim2 : Option Nat
  data : List (String × ArrayData)
deriving DecidableEq

/-- `IMAxisArrays::add_array`: fail when the key exists; read the element's
shape and check it against the axis rule — `shape[0] == dim1` for Row,
`shape[0] == dim1 && shape[1] == dim2` (an absent `dim2` is read as 0) for
RowColumn, `shape[0] == dim1 && shape[1] == dim1` for Pairwise — then insert.
Reading `shape[1]` of a 1-D element is a panic of the external shape type,
modelled as an error. -/
def InnerIMAxisArray.add_array (c : InnerIMAxisArray) (key : String) (e : ArrayData) :
    Except String InnerIMAxisArray :=
  if (alFind c.data key).isSome then .error "Key already exists"
  else
    match c.axis, e.shape with
    | .Row, s0 :: _ =>
      if s0 ≠ c.dim1 then .error "Data shape does not match expected row dimension"
      else .ok { c with data := c.data ++ [(key, e)] }
    | .RowColumn, s0 :: s1 :: _ =>
      if s0 ≠ c.dim1 ∨ s1 ≠ c.dim2.getD 0 then
        .error "Data shape does not match expected dimensions"
      else .ok { c with data := c.data ++ [(key, e)] }
    | .Pairwise, s0 :: s1 :: _ =>
      if s0 ≠ c.dim1 ∨ s1 ≠ c.dim1 then
        .error "Data shape does not match expected pairwise dimensions"
      else .ok { c with data := c.data ++ [(key, e)] }
    | _, _ => .error "panic: shape index out of bounds"

/-- `IMAxisArrays::subset`: translate the first selector against `dim1` (and,
when `dim2` is present, a required second selector against `dim2`) to obtain
the reduced sizes, subset every element with the full selector list, and
build a brand-new collection; the original and its shared dims are
untouched. -/
def InnerIMAxisArray.subset (c : InnerIMAxisArray) (s : List SelectInfoElem) :
    Except String InnerIMAxisArray :=
  match s with
  | [] => .error "panic: index out of bounds"
  | s0 :: rest => do
    let idx1 ← select_info_elem_to_indices s0 c.dim1
    let dim2' ← match c.dim2 with
      | none => pure (none : Option Nat)
      | some d2 =>
        match rest with
        | [] => .error "Subset operation requires two selection elements"
        | s1 :: _ => do
          let idx2 ← select_info_elem_to_indices s1 d2
          pure (some idx2.length)
    let data' ← c.data.mapM (fun kv => do
      let a ← kv.2.select s
      pure (kv.1, a))
    pure ⟨c.axis, idx1.length, dim2', data'⟩

/-- `IMAxisArrays::subset_inplace`: the in-place variant performs the same
translation and element selection but writes the reduced sizes into the
shared dims.  Its intra-step partial mutation on failure (the source sets
`dim1` via `try_set` before validating the second selector or the elements)
is not tracked: the model yields the fully updated collection or an error,
which is all the verified properties depend on. -/
def InnerIMAxisArray.subset_inplace (c : InnerIMAxisArray) (s : List SelectInfoElem) :
    Except String InnerIMAxisArray :=
  c.subset s

/-- The axis-kind shape rule as the code enforces it: the checked dimensions
of the element's shape against the collection's current dims. -/
def axisRuleOk (c : InnerIMAxisArray) (e : ArrayData) : Prop :=
  match c.axis with
  | .Row => e.shape.head? = some c.dim1
  | .RowColumn =>
    e.shape.head? = some c.dim1 ∧ e.shape.tail.head? = some (c.dim2.getD 0)
  | .Pairwise =>
    e.shape.head? = some c.dim1 ∧ e.shape.tail.head? = some c.dim1

/-- C3 counterexample: a Row-axis collection with `dim1 = 2` accepts a 2×3
element, whose shape `[2, 3]` is not the claimed exact shape `(dim1) = (2)`:
only `shape[0]` is checked for the Row kind (this is precisely how `obsm`
stores `n_obs × k` annotation matrices). -/
theorem axis_add_row_accepts_trailing_dims :
    (InnerIMAxisArray.add_array ⟨.Row, 2, none, []⟩ "k"
        (.a2 [[1, 2, 3], [4, 5, 6]])).isOk = true
    ∧ ArrayData.shape (.a2 [[1, 2, 3], [4, 5, 6]]) ≠ [2] := by
  decide

/-- C3 as amended: `add_array` succeeds iff the key is absent and the checked
dimensions match the axis-kind rule — `shape[0] == dim1` for Row (trailing
dimensions unconstrained), `shape[0] == dim1` and `shape[1] == dim2` (absent
`dim2` read as 0) for RowColumn, `shape[0] == shape[1] == dim1` for Pairwise;
a mismatch in a checked dimension is never silently accepted. -/
theorem axis_add_spec (c : InnerIMAxisArray) (key : String) (e : ArrayData) :
    (c.add_array key e).isOk = true ↔ alFind c.data key = none ∧ axisRuleOk c e := by
  obtain ⟨ax, d1, d2, data⟩ := c
  cases hf : alFind data key with
  | some v =>
    simp [InnerIMAxisArray.add_array, hf, Except.isOk, Except.toBool]
  | none =>
    cases ax <;> cases e <;>
      simp only [InnerIMAxisArray.add_array, hf, axisRuleOk, ArrayData.shape,
        Option.isSome, List.head?, List.tail] <;>
      split_ifs <;>
      simp_all [Except.isOk, Except.toBool] <;>
      tauto

/-- Concrete instantiation of the C3 theorem: a RowColumn collection with
dims (2, 3) accepts a 2×3 element. -/
theorem axis_add_spec_witness :
    (InnerIMAxisArray.add_array ⟨.RowColumn, 2, some 3, []⟩ "k"
        (.a2 [[1, 2, 3], [4, 5, 6]])).isOk = true :=
  (axis_add_spec ⟨.RowColumn, 2, some 3, []⟩ "k" (.a2 [[1, 2, 3], [4, 5, 6]])).mpr
    ⟨rfl, by constructor <;> rfl⟩

/-- Explicit cell store for `RwSlot<T>` (src/base/mod.rs): every slot handle
is an index into a list of reference-counted guarded cells, each holding
`Option T` (`none` is the explicitly emptied or closed slot).  The store makes
the aliasing structure of `Arc<RwLock<Option<T>>>` visible, which is what the
clone-semantics property is about. -/
structure SlotStore (T : Type) where
  cells : List (Option T)
deriving DecidableEq

/-- A handle to one shared cell (one `Arc` pointing into the store). -/
structure RwSlotRef where
  id : Nat
deriving DecidableEq

/-- Observe a slot's contents through a handle (`lock_read` / `read_inner`). -/
def SlotStore.read {T : Type} (σ : SlotStore T) (s : RwSlotRef) : Option T :=
  σ.cells.getD s.id none

/-- Mutate the cell a handle points to: covers `insert`, `extract`, `drop` and
mutation through `write_inner` / `lock_write`. -/
def SlotStore.write {T : Type} (σ : SlotStore T) (s : RwSlotRef) (v : Option T) :
    SlotStore T :=
  ⟨σ.cells.set s.id v⟩

/-- `RwSlot::shallow_clone`: a new handle to the same cell (`Arc::clone`). -/
def RwSlotRef.shallow_clone (s : RwSlotRef) : RwSlotRef := s

/-- `RwSlot::deep_clone`: allocate a brand-new independently guarded cell
holding a copy of the current value (an empty independent cell when the
source is empty) and hand back its handle. -/
def SlotStore.deep_clone {T : Type} (σ : SlotStore T) (s : RwSlotRef) :
    SlotStore T × RwSlotRef :=
  (⟨σ.cells ++ [σ.read s]⟩, ⟨σ.cells.length⟩)

/-- C7: clone semantics of the shared slot.  A deep clone observes the
source's value at clone time, and mutating the original afterwards leaves the
clone's observed value unchanged (in particular the deep clone of an empty
slot is an independent empty slot); after a shallow clone, a mutation through
either handle is observed through both handles. -/
theorem slot_clone_spec {T : Type} (σ : SlotStore T) (s : RwSlotRef)
    (v w : Option T) (h : s.id < σ.cells.length) :
    ((σ.deep_clone s).1.read (σ.deep_clone s).2 = σ.read s)
    ∧ (((σ.deep_clone s).1.write s v).read (σ.deep_clone s).2 = σ.read s)
    ∧ (σ.read s = none → (σ.deep_clone s).1.read (σ.deep_clone s).2 = none)
    ∧ ((σ.write s w).read s.shallow_clone = w
        ∧ (σ.write s.shallow_clone w).read s = w) := by
  have hclone : (σ.deep_clone s).1.read (σ.deep_clone s).2 = σ.read s := by
    simp only [SlotStore.deep_clone, SlotStore.read, List.getD_eq_getElem?_getD,
      List.getElem?_concat_length, Option.getD_some]
  have hwrite : ((σ.deep_clone s).1.write s v).read (σ.deep_clone s).2 = σ.read s := by
    simp only [SlotStore.deep_clone, SlotStore.write, SlotStore.read,
      List.getD_eq_getElem?_getD]
    rw [List.getElem?_set_ne (by omega), List.getElem?_concat_length, Option.getD_some]
  have hshallow : (σ.write s w).read s.shallow_clone = w := by
    simp only [SlotStore.write, SlotStore.read, RwSlotRef.shallow_clone,
      List.getD_eq_getElem?_getD]
    rw [List.getElem?_set_self h, Option.getD_some]
  exact ⟨hclone, hwrite, fun he => by rw [hclone, he], hshallow, hshallow⟩

/-- Concrete instantiation of the C7 theorem: one cell holding 5, deep clone,
overwrite the original with 7 — the clone still reads 5; a shallow clone
observes the overwrite. -/
theorem slot_clone_spec_witness :
    (((SlotStore.mk [some 5] : SlotStore Nat).deep_clone ⟨0⟩).1.write ⟨0⟩ (some 7)).read
        ((SlotStore.mk [some 5] : SlotStore Nat).deep_clone ⟨0⟩).2 = some 5
    ∧ ((SlotStore.mk [some 5] : SlotStore Nat).write ⟨0⟩ (some 7)).read
        (RwSlotRef.shallow_clone ⟨0⟩) = some 7 :=
  ⟨(slot_clone_spec (SlotStore.mk [some 5]) ⟨0⟩ (some 7) (some 7) (by decide)).2.1,
   (slot_clone_spec (SlotStore.mk [some 5]) ⟨0⟩ (some 7) (some 7) (by decide)).2.2.2.1⟩

/-- Model of the external `Data` value universe stored in the unstructured
collection. -/
inductive Data where
  | scalar : PValue → Data
  | array : ArrayData → Data
deriving DecidableEq

/-- `IMAnnData` (src/ad/mod.rs).  The two shared `Dim` cells are flattened to
their current values `n_obs` / `n_vars`; each axis collection's `dim1`/`dim2`
field holds the value of the shared cell it aliases (`obsm`, `obsp` and
`layers.dim1` alias `n_obs`; `varm`, `varp` and `layers.dim2` alias
`n_vars`), so in every aggregate the constructors or `subset` produce they
agree with the counters. -/
structure IMAnnData where
  n_obs : Nat
  n_vars : Nat
  x : ArrayData
  obs : InnerIMDataFrame
  obsm : InnerIMAxisArray
  obsp : InnerIMAxisArray
  var : InnerIMDataFrame
  varm : InnerIMAxisArray
  varp : InnerIMAxisArray
  uns : List (String × Data)
  layers : InnerIMAxisArray
deriving DecidableEq

/-- `IMAnnData::new`: read the counters from the metadata heights, validate
the matrix shape against them (`shape[0]` / `shape[1]`, a panic on a 1-D
matrix), then assemble the aggregate with empty axis collections and an empty
unstructured bag sharing the derived dims. -/
def IMAnnData.new (x : ArrayData) (obs var : InnerIMDataFrame) : Except String IMAnnData :=
  let n_obs := obs.df.height
  let n_vars := var.df.height
  match x.shape with
  | s0 :: s1 :: _ =>
    if s0 ≠ n_obs ∨ s1 ≠ n_vars then .error "Dimensions mismatch"
    else .ok {
      n_obs, n_vars, x, obs, var,
      obsm := ⟨.Row, n_obs, none, []⟩,
      obsp := ⟨.Pairwise, n_obs, none, []⟩,
      varm := ⟨.Row, n_vars, none, []⟩,
      varp := ⟨.Pairwise, n_vars, none, []⟩,
      uns := [],
      layers := ⟨.RowColumn, n_obs, some n_vars, []⟩ }
  | _ => .error "panic: shape index out of bounds"

/-- `IMAnnData::new_basic`: validate the label-list lengths against the
matrix shape, synthesize one-column `index` metadata tables from the labels,
and delegate to `IMAnnData::new`. -/
def IMAnnData.new_basic (matrix : ArrayData) (obs_names var_names : List String) :
    Except String IMAnnData :=
  match matrix.shape with
  | n_obs :: n_vars :: _ =>
    if n_obs ≠ obs_names.length ∨ n_vars ≠ var_names.length then
      .error "Dimensions mismatch between matrix and index names"
    else do
      let obs ← InnerIMDataFrame.new ⟨[⟨"index", obs_names.map .str⟩]⟩ obs_names
      let var ← InnerIMDataFrame.new ⟨[⟨"index", var_names.map .str⟩]⟩ var_names
      IMAnnData.new matrix obs var
  | _ => .error "panic: shape index out of bounds"

/-- `IMAnnData::add_layer`: delegate to the layers collection. -/
def IMAnnData.add_layer (a : IMAnnData) (name : String) (data : ArrayData) :
    Except String IMAnnData := do
  let layers ← a.layers.add_array name data
  pure { a with layers := layers }

/-- `IMAnnData::subset` (out of place): exactly two selectors; bound-check
the row selector against `n_obs` and the column selector against `n_vars`;
then subset every shaped component into fresh elements, carry `uns` over,
recompute the counters from the new metadata heights and assemble a fresh
aggregate.  The source only reads `&self`, so the original aggregate is
untouched — in the embedding this is inherent in `subset` being a pure
function of the original value. -/
def IMAnnData.subset (a : IMAnnData) (selection : List SelectInfoElem) :
    Except String IMAnnData :=
  match selection with
  | [obs_sel, var_sel] =>
    if ¬ obs_sel.bound_check a.n_obs then .error "selector out of bounds for n_obs"
    else if ¬ var_sel.bound_check a.n_vars then .error "selector out of bounds for n_vars"
    else do
      let obs ← a.obs.subset obs_sel
      let var ← a.var.subset var_sel
      let layers ← a.layers.subset [obs_sel, var_sel]
      let obsm ← a.obsm.subset [obs_sel, .full]
      let obsp ← a.obsp.subset [obs_sel, obs_sel]
      let varm ← a.varm.subset [var_sel, .full]
      let varp ← a.varp.subset [var_sel, var_sel]
      let x ← a.x.select [obs_sel, var_sel]
      pure { n_obs := obs.df.height, n_vars := var.df.height, x, obs, obsm, obsp,
             var, varm, varp, uns := a.uns, layers }
  | _ => .error "Invalid selection, only 2-dimensional selections are supported"

/-- `IMAnnData::subset_inplace`: validate the selector count and both bounds
up front, then mutate the eight shaped components sequentially with no
rollback.  The result is the aggregate state actually reached (a partially
subsetted state when a later step fails) paired with the error, if any.
Writes to the shared dims during the axis-collection steps are mirrored into
`n_obs` / `n_vars` (the `Dim` cells are shared); sibling collections' stale
`dim1` fields coincide with the shared value on every reachable path, because
a dim can only change on a path that already failed at the metadata step
(`subset_inplace` on a table succeeds only when the selection preserves the
height). -/
def IMAnnData.subset_inplace (a : IMAnnData) (selection : List SelectInfoElem) :
    IMAnnData × Option String :=
  match selection with
  | [obs_sel, var_sel] =>
    if ¬ obs_sel.bound_check a.n_obs then (a, some "selector out of bounds for n_obs")
    else if ¬ var_sel.bound_check a.n_vars then (a, some "selector out of bounds for n_vars")
    else
      match a.x.select [obs_sel, var_sel] with
      | .error e => (a, some e)
      | .ok x =>
        let a := { a with x := x }
        match a.obs.subset_inplace obs_sel with
        | .error e => (a, some e)
        | .ok obs =>
          let a := { a with obs := obs }
          match a.var.subset_inplace var_sel with
          | .error e => (a, some e)
          | .ok var =>
            let a := { a with var := var }
            match a.layers.subset_inplace [obs_sel, var_sel] with
            | .error e => (a, some e)
            | .ok layers =>
              let a := { a with layers := layers, n_obs := layers.dim1, n_vars := layers.dim2.getD a.n_vars }
              match a.obsm.subset_inplace [obs_sel, .full] with
              | .error e => (a, some e)
              | .ok obsm =>
                let a := { a with obsm := obsm, n_obs := obsm.dim1 }
                match a.obsp.subset_inplace [obs_sel, obs_sel] with
                | .error e => (a, some e)
                | .ok obsp =>
                  let a := { a with obsp := obsp, n_obs := obsp.dim1 }
                  match a.varm.subset_inplace [var_sel, .full] with
                  | .error e => (a, some e)
                  | .ok varm =>
                    let a := { a with varm := varm, n_vars := varm.dim1 }
                    match a.varp.subset_inplace [var_sel, var_sel] with
                    | .error e => (a, some e)
                    | .ok varp => ({ a with varp := varp, n_vars := varp.dim1 }, none)
  | _ => (a, some "Invalid selection, only 2-dimensional selections are supported")

/-- The 3×3 matrix of the end-to-end scenario (the nonzero entries mirror the
repository's own test fixture: 1 at (0,0), 2 at (1,2), 3 at (2,1), 4 at
(2,2)). -/
def mat3 : ArrayData := .a2 [[1, 0, 0], [0, 0, 2], [0, 3, 4]]

/-- Row labels of the end-to-end scenario. -/
def obsNames3 : List String := ["obs1", "obs2", "obs3"]

/-- Column labels of the end-to-end scenario. -/
def varNames3 : List String := ["var1", "var2", "var3"]

/-- The end-to-end base aggregate: `new_basic` on the 3×3 matrix, then a
layer named `raw` with the same data. -/
def scenarioBase : Except String IMAnnData := do
  let a ← IMAnnData.new_basic mat3 obsNames3 varNames3
  a.add_layer "raw" mat3

/-- The out-of-place whole-object subset of the base aggregate by rows
`[0, 2]` and columns `[1, 2]`. -/
def scenarioSubset : Except String IMAnnData :=
  scenarioBase.bind (fun a => a.subset [.index [0, 2], .index [1, 2]])

/-- C1: the end-to-end scenario.  The subset aggregate has `row_count == 2`,
`col_count == 2`, row labels `["obs1", "obs3"]`, column labels
`["var2", "var3"]`, and its `raw` layer has shape `(2, 2)` and holds
`[[0, 0], [3, 4]]` — the original matrix at rows `{0, 2}` × columns
`{1, 2}`.  The original aggregate (built by a pure read, `subset` takes
`&self`) still shows all its pre-subset observations. -/
theorem end_to_end_subset_spec :
    (scenarioSubset.map (fun a => a.n_obs)) = .ok 2
    ∧ (scenarioSubset.map (fun a => a.n_vars)) = .ok 2
    ∧ (scenarioSubset.map (fun a => a.obs.index)) = .ok ["obs1", "obs3"]
    ∧ (scenarioSubset.map (fun a => a.var.index)) = .ok ["var2", "var3"]
    ∧ (scenarioSubset.map (fun a => alFind a.layers.data "raw"))
        = .ok (some (.a2 [[0, 0], [3, 4]]))
    ∧ (scenarioSubset.map (fun a => (alFind a.layers.data "raw").map ArrayData.shape))
        = .ok (some [2, 2])
    ∧ (scenarioBase.map (fun a => a.n_obs)) = .ok 3
    ∧ (scenarioBase.map (fun a => a.n_vars)) = .ok 3
    ∧ (scenarioBase.map (fun a => a.obs.index)) = .ok obsNames3
    ∧ (scenarioBase.map (fun a => a.var.index)) = .ok varNames3
    ∧ (scenarioBase.map (fun a => alFind a.layers.data "raw")) = .ok (some mat3) := by
  decide

/-- C8: both whole-object subset operations accept exactly two selectors —
any other count is an error — and, with two selectors, fail when either the
row selector is out of bounds for `n_obs` or the column selector is out of
bounds for `n_vars`. -/
theorem subset_selector_validation (a : IMAnnData) (sel : List SelectInfoElem) :
    (sel.length ≠ 2 →
      (a.subset sel).isOk = false ∧ (a.subset_inplace sel).2.isSome = true)
    ∧ (∀ r c, sel = [r, c] →
        (r.bound_check a.n_obs = false ∨ c.bound_check a.n_vars = false) →
        (a.subset sel).isOk = false ∧ (a.subset_inplace sel).2.isSome = true) := by
  constructor
  · intro hlen
    rcases sel with _ | ⟨s1, _ | ⟨s2, _ | ⟨s3, rest⟩⟩⟩
    · exact ⟨rfl, rfl⟩
    · exact ⟨rfl, rfl⟩
    · exact absurd rfl hlen
    · exact ⟨rfl, rfl⟩
  · rintro r c rfl hbc
    by_cases hr : r.bound_check a.n_obs
    · have hc : c.bound_check a.n_vars = false := by
        rcases hbc with hb | hb
        · rw [hr] at hb; cases hb
        · exact hb
      constructor
      · simp only [IMAnnData.subset]
        rw [if_neg (by simp [hr]), if_pos (by simp [hc])]
        rfl
      · simp only [IMAnnData.subset_inplace]
        rw [if_neg (by simp [hr]), if_pos (by simp [hc])]
        rfl
    · constructor
      · simp only [IMAnnData.subset]
        rw [if_pos (by simp [hr])]
        rfl
      · simp only [IMAnnData.subset_inplace]
        rw [if_pos (by simp [hr])]
        rfl

/-- A small concrete aggregate (1×1) used to instantiate the validation
theorems. -/
def adOne : IMAnnData :=
  ⟨1, 1, .a2 [[7]],
   ⟨⟨[⟨"index", [.str "r"]⟩]⟩, ["r"]⟩,
   ⟨.Row, 1, none, []⟩, ⟨.Pairwise, 1, none, []⟩,
   ⟨⟨[⟨"index", [.str "c"]⟩]⟩, ["c"]⟩,
   ⟨.Row, 1, none, []⟩, ⟨.Pairwise, 1, none, []⟩,
   [], ⟨.RowColumn, 1, some 1, []⟩⟩

/-- Concrete instantiation of the C8 theorem: an empty selector list and an
out-of-bounds row selector are both rejected by both operations. -/
theorem subset_selector_validation_witness :
    ((adOne.subset []).isOk = false ∧ (adOne.subset_inplace []).2.isSome = true)
    ∧ ((adOne.subset [.index [3], .index [0]]).isOk = false
        ∧ (adOne.subset_inplace [.index [3], .index [0]]).2.isSome = true) :=
  ⟨(subset_selector_validation adOne []).1 (by decide),
   (subset_selector_validation adOne [.index [3], .index [0]]).2 (.index [3]) (.index [0])
     rfl (Or.inl (by decide))⟩

/-- C10: when the in-place whole-object subset fails its up-front validation
(selector count different from two, or either selector failing its bound
check against `n_obs` / `n_vars`), it returns an error before subsetting any
component, and the aggregate — matrix, both metadata tables, all axis
collections, both dimension counters and the unstructured collection — is
returned completely unchanged. -/
theorem subset_inplace_validation_preserves_state (a : IMAnnData)
    (sel : List SelectInfoElem) :
    (sel.length ≠ 2 →
      (a.subset_inplace sel).1 = a ∧ (a.subset_inplace sel).2.isSome = true)
    ∧ (∀ r c, sel = [r, c] →
        (r.bound_check a.n_obs = false ∨ c.bound_check a.n_vars = false) →
        (a.subset_inplace sel).1 = a ∧ (a.subset_inplace sel).2.isSome = true) := by
  constructor
  · intro hlen
    rcases sel with _ | ⟨s1, _ | ⟨s2, _ | ⟨s3, rest⟩⟩⟩
    · exact ⟨rfl, rfl⟩
    · exact ⟨rfl, rfl⟩
    · exact absurd rfl hlen
    · exact ⟨rfl, rfl⟩
  · rintro r c rfl hbc
    by_cases hr : r.bound_check a.n_obs
    · have hc : c.bound_check a.n_vars = false := by
        rcases hbc with hb | hb
        · rw [hr] at hb; cases hb
        · exact hb
      simp only [IMAnnData.subset_inplace]
      rw [if_neg (by simp [hr]), if_pos (by simp [hc])]
      exact ⟨rfl, rfl⟩
    · simp only [IMAnnData.subset_inplace]
      rw [if_pos (by simp [hr])]
      exact ⟨rfl, rfl⟩

/-- Concrete instantiation of the C10 theorem: an out-of-bounds row selector
leaves the 1×1 aggregate untouched. -/
theorem subset_inplace_validation_witness :
    (adOne.subset_inplace [.index [3], .index [0]]).1 = adOne
    ∧ (adOne.subset_inplace [.index [3], .index [0]]).2.isSome = true :=
  (subset_inplace_validation_preserves_state adOne [.index [3], .index [0]]).2
    (.index [3]) (.index [0]) rfl (Or.inl (by decide))

end AnndataMem
